import Mathlib

/-!
Shallow embedding of `src/pynumaflow/function/server.py` (the
`UserDefinedFunctionServicer` gRPC servicer of numaflow-python) and proofs
about it.

Conventions of the embedding:
* Python `bytes` payloads are `List Nat` (one entry per byte).
* Wire timestamps and Python `datetime` values share one carrier `Timestamp`
  (an `Int`); `google.protobuf.Timestamp.ToDatetime` is a lossless conversion
  between the two representations, embedded as the identity on that carrier.
* A Python callable that may raise is a Lean function into `Except PyExc _`;
  the two-level exception hierarchy (`BaseException` ⊇ `Exception`) is the
  inductive `PyExc`: `try/except Exception` catches exactly `PyExc.exc`.
* The gRPC servicer context is a record holding the invocation metadata and
  the status code / details the handler may set on it.
* The well-known routing-key metadata name `DATUM_KEY` is imported by the
  source from `pynumaflow._constants`, which is not part of the sources under
  verification; its concrete value is immaterial, so every definition that
  scans metadata takes the name as an explicit `datumKey` parameter and the
  theorems quantify over it.
-/

/-- An opaque byte payload (Python `bytes`). -/
abbrev Bytes := List Nat

/-- Common carrier for wire timestamps and Python `datetime` values. -/
abbrev Timestamp := Int

/-- `google.protobuf.Timestamp.ToDatetime()`: conversion from the wire
timestamp representation to the semantic timestamp type, embedded as the
identity on the shared carrier. -/
def ToDatetime (t : Timestamp) : Timestamp := t

/-- Python exception values as seen by a `try/except Exception` boundary:
`exc` is an instance of `Exception` (or a subclass), `baseOnly` is a
`BaseException` that does not derive from `Exception` (e.g.
`KeyboardInterrupt`, `SystemExit`). -/
inductive PyExc
  | exc (msg : String)
  | baseOnly (msg : String)
deriving DecidableEq, Repr

/-- Modelled from the spec: the `Datum` value object of
`pynumaflow.function` (its class definition is not among the sources under
verification): one unit of input data plus event time and watermark. -/
structure Datum where
  value : Bytes
  event_time : Timestamp
  watermark : Timestamp
deriving DecidableEq, Repr

/-- Modelled from the spec: the Output `Message` of `pynumaflow.function`
(not among the sources under verification): a routing key and an opaque byte
payload. -/
structure Message where
  key : String
  value : Bytes
deriving DecidableEq, Repr

/-- Modelled from the spec: the `Messages` collection of
`pynumaflow.function` (not among the sources under verification): an ordered
sequence of output messages with create-empty / append / insertion-order
semantics; `items` returns the messages in production order. -/
structure Messages where
  items : List Message
deriving DecidableEq, Repr

/-- Modelled from the spec: `Messages.as_forward_all` (not among the sources
under verification).  The only call site in the source is
`Messages.as_forward_all(None)` in the failure branch of `MapFn`, which the
spec describes as substituting "a sentinel result equivalent to zero output
messages"; the sentinel is therefore the empty collection. -/
def Messages.as_forward_all (_value : Option Bytes) : Messages := ⟨[]⟩

/-- Wrapper message holding the wire event time
(`request.event_time.event_time`). -/
structure PbEventTime where
  event_time : Timestamp := 0
deriving DecidableEq, Repr

/-- Wrapper message holding the wire watermark
(`request.watermark.watermark`). -/
structure PbWatermark where
  watermark : Timestamp := 0
deriving DecidableEq, Repr

/-- The wire message `udfunction_pb2.Datum`: key, value, event time and
watermark, each defaulting to the proto3 zero value. -/
structure PbDatum where
  key : String := ""
  value : Bytes := []
  event_time : PbEventTime := {}
  watermark : PbWatermark := {}
deriving DecidableEq, Repr

/-- The wire message `udfunction_pb2.DatumList`: an ordered sequence of
elements. -/
structure DatumList where
  elements : List PbDatum
deriving DecidableEq, Repr

/-- The wire message `udfunction_pb2.ReadyResponse`. -/
structure ReadyResponse where
  ready : Bool
deriving DecidableEq, Repr

/-- gRPC status codes used by the source. -/
inductive StatusCode
  | ok
  | unimplemented
deriving DecidableEq, Repr

/-- The gRPC servicer context: invocation metadata (an ordered list of
key/value entries in transport-provided order) plus the status code and
details a handler may set. -/
structure ServicerContext where
  invocation_metadata : List (String × String)
  code : Option StatusCode := none
  details : Option String := none
deriving DecidableEq, Repr

/-- Logging levels of the `logging` calls in the source. -/
inductive LogLevel
  | debug
  | info
  | critical
deriving DecidableEq, Repr

/-- One emitted log line: level, format string, and the exception value
passed for interpolation (`exc_info=True` diagnostics travel with it). -/
structure LogEntry where
  level : LogLevel
  fmt : String
  err : PyExc
deriving DecidableEq, Repr

/-- The type of the user-supplied map handler (`UDFMapCallable`,
`Callable[[str, Datum], Messages]`), with the raise channel made explicit. -/
abbrev UDFMapCallable := String → Datum → Except PyExc Messages

/-- Outcome of one `MapFn` invocation: either the handler returns normally
(the gRPC call reports success) with the emitted log lines and the response,
or an exception escapes `MapFn` uncontained. -/
inductive MapFnResult
  | success (logs : List LogEntry) (response : DatumList)
  | uncaught (e : PyExc)
deriving DecidableEq, Repr

/-- The routing-key extraction loop at the top of `MapFn`:

```
key = ""
for metadata_key, metadata_value in context.invocation_metadata():
    if metadata_key == DATUM_KEY:
        key = metadata_value
```

Each matching entry overwrites `key`, so the loop keeps the value of the
last matching entry (or `""` when none matches). -/
def extractKey (datumKey : String) (metadata : List (String × String)) : String :=
  metadata.foldl (fun key p => if p.1 = datumKey then p.2 else key) ""

/-- The `Datum` constructed from the wire request inside `MapFn`:
`Datum(value=request.value, event_time=request.event_time.event_time.ToDatetime(),
watermark=request.watermark.watermark.ToDatetime())`. -/
def mapRequestDatum (request : PbDatum) : Datum :=
  { value := request.value
    event_time := ToDatetime request.event_time.event_time
    watermark := ToDatetime request.watermark.watermark }

/-- The serialization loop at the end of `MapFn`:

```
datums = []
for msg in msgs.items():
    datums.append(udfunction_pb2.Datum(key=msg.key, value=msg.value))
return udfunction_pb2.DatumList(elements=datums)
```
-/
def serializeMessages (msgs : Messages) : DatumList :=
  ⟨msgs.items.map fun msg => { key := msg.key, value := msg.value }⟩

/-- The format string of the critical log emitted in the failure branch of
`MapFn`. -/
def UDF_ERROR_LOG : String := "UDFError, dropping message on the floor: %r"

/-- `UserDefinedFunctionServicer.MapFn`: extract the routing key from the
invocation metadata, build a `Datum` from the request, invoke the handler
inside the `try/except Exception` boundary (a raised `Exception` is logged
critical and replaced by `Messages.as_forward_all(None)`; any other
`BaseException` escapes), and serialize the resulting messages. -/
def MapFn (datumKey : String) (map_handler : UDFMapCallable)
    (request : PbDatum) (context : ServicerContext) : MapFnResult :=
  let key := extractKey datumKey context.invocation_metadata
  match map_handler key (mapRequestDatum request) with
  | .ok msgs => .success [] (serializeMessages msgs)
  | .error (.exc msg) =>
      .success [⟨.critical, UDF_ERROR_LOG, .exc msg⟩]
        (serializeMessages (Messages.as_forward_all none))
  | .error (.baseOnly msg) => .uncaught (.baseOnly msg)

/-- Outcome of one `ReduceFn` invocation: the handler either raises (the
framework turns this into a failed call) or returns a `DatumList`. -/
inductive ReduceOutcome
  | raised (msg : String)
  | returned (response : DatumList)
deriving DecidableEq, Repr

/-- `UserDefinedFunctionServicer.ReduceFn`: sets the call status to
`UNIMPLEMENTED` with fixed details and raises `NotImplementedError`; the
request iterator is returned unconsumed (no element is ever pulled from
it). -/
def ReduceFn (request_iterator : List PbDatum) (context : ServicerContext) :
    (ServicerContext × ReduceOutcome) × List PbDatum :=
  (({ context with
      code := some .unimplemented
      details := some "Method not implemented!" },
    .raised "Method not implemented!"),
   request_iterator)

/-- `UserDefinedFunctionServicer.IsReady`: always answers
`ReadyResponse(ready=True)`; neither the request nor the context is read or
modified. -/
def IsReady (_request : Unit) (_context : ServicerContext) : ReadyResponse :=
  { ready := true }

/-- The `UserDefinedFunctionServicer` object state: the stored handler and
configuration.  All fields are set at construction and never mutated. -/
structure UserDefinedFunctionServicer where
  map_handler : UDFMapCallable
  sock_path : String
  max_message_size : Int

/-- `UserDefinedFunctionServicer.__init__`. -/
def UserDefinedFunctionServicer.init (map_handler : UDFMapCallable)
    (sock_path : String) (max_message_size : Int) : UserDefinedFunctionServicer :=
  { map_handler := map_handler
    sock_path := "unix://" ++ sock_path
    max_message_size := max_message_size }

/-- The gRPC channel options passed to `grpc.aio.server` in `__serve`. -/
def serveOptions (self : UserDefinedFunctionServicer) : List (String × Int) :=
  [("grpc.max_send_message_length", self.max_message_size),
   ("grpc.max_receive_message_length", self.max_message_size)]

/-- One inbound unary call to the servicer. -/
inductive Call
  | map (request : PbDatum) (context : ServicerContext)
  | isReady (context : ServicerContext)

/-- The response produced for one inbound call. -/
inductive RpcResponse
  | mapResult (r : MapFnResult)
  | ready (r : ReadyResponse)
deriving DecidableEq, Repr

/-- Dispatch of one inbound call to the servicer's handler method.  The
servicer object itself is immutable (all its fields are set in `__init__`
and never written afterwards), so dispatch does not thread any servicer
state. -/
def handleCall (datumKey : String) (s : UserDefinedFunctionServicer) :
    Call → RpcResponse
  | .map request context => .mapResult (MapFn datumKey s.map_handler request context)
  | .isReady context => .ready (IsReady () context)

/-- A sequence of inbound calls handled in order. -/
def runCalls (datumKey : String) (s : UserDefinedFunctionServicer)
    (calls : List Call) : List RpcResponse :=
  calls.map (handleCall datumKey s)

/-- From the source: the grace period (in seconds) passed to `server.stop`
by `server_graceful_shutdown`. -/
def SHUTDOWN_GRACE : Nat := 5

/-- Fate of a call that was in flight when the shutdown signal arrived. -/
inductive CallFate
  | completed
  | forciblyTerminated
deriving DecidableEq, Repr

/-- Modelled from the spec: the STOPPING state of the server lifecycle.  The
source delegates this behavior to `grpc.aio.Server.stop(grace)`, whose
implementation is outside this repository; the spec (and the source's own
comment on `server_graceful_shutdown`) describe it as: no new connections
are accepted after the signal, and an in-flight call may finish within the
grace period, after which it is forcibly terminated.  Time is discrete. -/
structure StoppingServer where
  signal_time : Nat
  grace : Nat
deriving DecidableEq, Repr

/-- Modelled from the spec: a stopping server accepts no new connections. -/
def StoppingServer.acceptsNewConnections (_ : StoppingServer) : Bool := false

/-- Modelled from the spec: an in-flight call that would finish at
`finish_time` completes normally if that is within the grace window, and is
forcibly terminated otherwise. -/
def StoppingServer.fate (s : StoppingServer) (finish_time : Nat) : CallFate :=
  if finish_time ≤ s.signal_time + s.grace then .completed else .forciblyTerminated

/-- `server_graceful_shutdown` (the local coroutine in `__serve`): issues
`server.stop(5)`, entering the STOPPING state with grace `SHUTDOWN_GRACE`. -/
def server_graceful_shutdown (signal_time : Nat) : StoppingServer :=
  ⟨signal_time, SHUTDOWN_GRACE⟩

/-!  Helper lemmas about the routing-key fold. -/

/-- The key-overwriting fold of `extractKey` keeps the value of the last
matching metadata entry: it equals the first match found when scanning the
reversed list, with the accumulator as the fallback. -/
theorem foldl_key_eq_find (datumKey : String) (acc : String)
    (md : List (String × String)) :
    md.foldl (fun key p => if p.1 = datumKey then p.2 else key) acc =
      ((md.reverse.find? fun p => decide (p.1 = datumKey)).map Prod.snd).getD acc := by
  induction md generalizing acc with
  | nil => simp
  | cons q t ih =>
    simp only [List.foldl_cons, List.reverse_cons, List.find?_append]
    rw [ih]
    cases hfind : t.reverse.find? (fun p => decide (p.1 = datumKey)) with
    | some p => simp
    | none =>
      by_cases hq : q.1 = datumKey <;> simp [hq]

/-- `extractKey` returns the value of the last matching metadata entry, or
`""` when no entry matches. -/
theorem extractKey_eq_last_match (datumKey : String)
    (metadata : List (String × String)) :
    extractKey datumKey metadata =
      ((metadata.reverse.find? fun p => decide (p.1 = datumKey)).map Prod.snd).getD "" :=
  foldl_key_eq_find datumKey "" metadata

/-!  Claim theorems. -/

/-- C1: For every Map call in which the transformation callback raises an
`Exception`, `MapFn` returns normally (the gRPC call reports success, not an
RPC error) with a `DatumList` containing zero elements, and the only
observable side effect is one critical-level log line. -/
theorem map_drop_on_failure (datumKey : String) (map_handler : UDFMapCallable)
    (request : PbDatum) (context : ServicerContext) (msg : String)
    (hraise : map_handler (extractKey datumKey context.invocation_metadata)
        (mapRequestDatum request) = .error (.exc msg)) :
    MapFn datumKey map_handler request context =
      .success [⟨.critical, UDF_ERROR_LOG, .exc msg⟩] ⟨[]⟩ := by
  simp [MapFn, hraise, Messages.as_forward_all, serializeMessages]

/-- Witness for C1 at a concrete failing callback. -/
theorem map_drop_on_failure_witness :
    MapFn "x" (fun _ _ => .error (.exc "ValueError")) {}
        { invocation_metadata := [("x", "k")] } =
      .success [⟨.critical, UDF_ERROR_LOG, .exc "ValueError"⟩] ⟨[]⟩ :=
  map_drop_on_failure "x" _ _ _ "ValueError" rfl

/-- C3: For every Map call whose callback returns a sequence of n output
messages, the response `DatumList` contains exactly those n elements in
production order, with each element's key and value equal to the
corresponding message's key and value. -/
theorem map_pass_through (datumKey : String) (map_handler : UDFMapCallable)
    (request : PbDatum) (context : ServicerContext) (msgs : Messages)
    (hok : map_handler (extractKey datumKey context.invocation_metadata)
        (mapRequestDatum request) = .ok msgs) :
    ∃ response : DatumList,
      MapFn datumKey map_handler request context = .success [] response ∧
      response.elements.length = msgs.items.length ∧
      ∀ i : Nat,
        (response.elements[i]?.map fun d => (d.key, d.value)) =
          (msgs.items[i]?.map fun m => (m.key, m.value)) := by
  refine ⟨serializeMessages msgs, ?_, ?_, ?_⟩
  · simp [MapFn, hok]
  · simp [serializeMessages]
  · intro i
    cases h : msgs.items[i]? with
    | none => simp [serializeMessages, List.getElem?_map, h]
    | some m => simp [serializeMessages, List.getElem?_map, h]

/-- Witness for C3: the spec's concrete scenario (identity forward of
`b"hello"` under metadata key value `"X"`). -/
theorem map_pass_through_witness :
    ∃ response : DatumList,
      MapFn "x" (fun key d => .ok ⟨[⟨key, d.value⟩]⟩)
          { value := [104, 101, 108, 108, 111] }
          { invocation_metadata := [("x", "X")] } = .success [] response ∧
      response.elements.length =
        (Messages.mk [⟨"X", [104, 101, 108, 108, 111]⟩]).items.length ∧
      ∀ i : Nat,
        (response.elements[i]?.map fun d => (d.key, d.value)) =
          ((Messages.mk [⟨"X", [104, 101, 108, 108, 111]⟩]).items[i]?.map
            fun m => (m.key, m.value)) :=
  map_pass_through "x" _ _ _ ⟨[⟨"X", [104, 101, 108, 108, 111]⟩]⟩ rfl

/-- C9: The `try/except Exception` boundary in `MapFn` contains only
`Exception` and its subclasses: a callback raising a `BaseException` not
derived from `Exception` (e.g. `KeyboardInterrupt`) propagates out of
`MapFn` uncontained, with no log line and no substituted empty result. -/
theorem map_base_exception_escapes (datumKey : String)
    (map_handler : UDFMapCallable) (request : PbDatum)
    (context : ServicerContext) (msg : String)
    (hraise : map_handler (extractKey datumKey context.invocation_metadata)
        (mapRequestDatum request) = .error (.baseOnly msg)) :
    MapFn datumKey map_handler request context = .uncaught (.baseOnly msg) := by
  simp [MapFn, hraise]

/-- Witness for C9 at a concrete callback raising `KeyboardInterrupt`. -/
theorem map_base_exception_escapes_witness :
    MapFn "x" (fun _ _ => .error (.baseOnly "KeyboardInterrupt")) {}
        { invocation_metadata := [("x", "k")] } =
      .uncaught (.baseOnly "KeyboardInterrupt") :=
  map_base_exception_escapes "x" _ _ _ "KeyboardInterrupt" rfl

/-- C10: `MapFn` is deterministic and reads nothing beyond the request's
value / event time / watermark, the context's invocation metadata, and the
callback: two calls agreeing on those (even with different wire `key`
fields or different context status fields, and with extensionally equal
callbacks) produce identical results. -/
theorem map_deterministic (datumKey : String) (h₁ h₂ : UDFMapCallable)
    (req₁ req₂ : PbDatum) (ctx₁ ctx₂ : ServicerContext)
    (hv : req₁.value = req₂.value)
    (he : req₁.event_time = req₂.event_time)
    (hw : req₁.watermark = req₂.watermark)
    (hmd : ctx₁.invocation_metadata = ctx₂.invocation_metadata)
    (hh : ∀ k d, h₁ k d = h₂ k d) :
    MapFn datumKey h₁ req₁ ctx₁ = MapFn datumKey h₂ req₂ ctx₂ := by
  have hdat : mapRequestDatum req₁ = mapRequestDatum req₂ := by
    simp [mapRequestDatum, hv, he, hw]
  simp only [MapFn, hmd, hdat, hh]

/-- Witness for C10: the wire `key` field and the context's status fields
differ between the two calls, yet the results coincide. -/
theorem map_deterministic_witness :
    MapFn "x" (fun key d => .ok ⟨[⟨key, d.value⟩]⟩)
        { key := "p", value := [1, 2], event_time := ⟨3⟩, watermark := ⟨4⟩ }
        { invocation_metadata := [("x", "a")] } =
      MapFn "x" (fun key d => .ok ⟨[⟨key, d.value⟩]⟩)
        { key := "q", value := [1, 2], event_time := ⟨3⟩, watermark := ⟨4⟩ }
        { invocation_metadata := [("x", "a")], code := some .ok,
          details := some "d" } :=
  map_deterministic "x" _ _ _ _ _ _ rfl rfl rfl rfl (fun _ _ => rfl)

/-- C2 counterexample: with two metadata entries under the routing-key name
`"x"` carrying values `"a"` then `"b"`, the key extracted by `MapFn` is the
value of the LAST entry (`"b"`), not of the first (`"a"`): first-seen does
not win. -/
theorem map_first_seen_counterexample :
    extractKey "x" [("x", "a"), ("x", "b")] = "b" ∧
    extractKey "x" [("x", "a"), ("x", "b")] ≠ "a" := by
  decide

/-- C2 (amended): For every Map call whose call-context metadata contains
two or more entries under the well-known routing-key name, the key passed to
the transformation callback equals the value of the LAST such entry in
transport-provided metadata order (last-seen wins). -/
theorem map_duplicate_key_last_seen (datumKey : String)
    (metadata : List (String × String)) (p : String × String)
    (_hdup : 2 ≤ (metadata.filter fun q => decide (q.1 = datumKey)).length)
    (hlast : metadata.reverse.find? (fun q => decide (q.1 = datumKey)) = some p) :
    extractKey datumKey metadata = p.2 := by
  rw [extractKey_eq_last_match, hlast]
  rfl

/-- Witness for the amended C2 at a concrete duplicated metadata key. -/
theorem map_duplicate_key_last_seen_witness :
    extractKey "x" [("x", "a"), ("x", "b")] = Prod.snd ("x", "b") :=
  map_duplicate_key_last_seen "x" [("x", "a"), ("x", "b")] ("x", "b")
    (by decide) (by decide)

/-- C4: For every Map call carrying (exactly) one metadata entry under the
well-known routing-key name, the key passed to the transformation callback
equals that entry's value; for every call with no such entry, the key passed
is the empty string. -/
theorem map_key_extraction (datumKey : String)
    (metadata : List (String × String)) (v : String) :
    ((metadata.filter fun q => decide (q.1 = datumKey)) = [(datumKey, v)] →
      extractKey datumKey metadata = v) ∧
    ((metadata.filter fun q => decide (q.1 = datumKey)) = [] →
      extractKey datumKey metadata = "") := by
  constructor
  · intro hfil
    have hmem : (datumKey, v) ∈ metadata := by
      have : (datumKey, v) ∈ metadata.filter fun q => decide (q.1 = datumKey) := by
        rw [hfil]; exact List.mem_singleton.mpr rfl
      exact (List.mem_filter.mp this).1
    have hsome : (metadata.reverse.find? fun q => decide (q.1 = datumKey)).isSome :=
      List.find?_isSome.mpr ⟨(datumKey, v), List.mem_reverse.mpr hmem, by simp⟩
    obtain ⟨p, hp⟩ := Option.isSome_iff_exists.mp hsome
    have hPp := List.find?_some hp
    have hpfil : p ∈ metadata.filter fun q => decide (q.1 = datumKey) :=
      List.mem_filter.mpr
        ⟨List.mem_reverse.mp (List.mem_of_find?_eq_some hp), hPp⟩
    rw [hfil, List.mem_singleton] at hpfil
    rw [extractKey_eq_last_match, hp, hpfil]
    rfl
  · intro hfil
    have hnone : (metadata.reverse.find? fun q => decide (q.1 = datumKey)) = none := by
      rw [List.find?_eq_none]
      intro x hx
      have hxm : x ∈ metadata := List.mem_reverse.mp hx
      intro hPx
      have : x ∈ metadata.filter fun q => decide (q.1 = datumKey) :=
        List.mem_filter.mpr ⟨hxm, hPx⟩
      rw [hfil] at this
      exact (List.not_mem_nil x) this
    rw [extractKey_eq_last_match, hnone]
    rfl

/-- Witness for C4: one matching entry yields its value; none yields `""`. -/
theorem map_key_extraction_witness :
    extractKey "x" [("y", "z"), ("x", "v")] = "v" ∧
    extractKey "x" [("y", "z")] = "" :=
  ⟨(map_key_extraction "x" [("y", "z"), ("x", "v")] "v").1 (by decide),
   (map_key_extraction "x" [("y", "z")] "v").2 (by decide)⟩

/-- C5: Every call to `ReduceFn`, regardless of the request stream, sets the
call's status code to UNIMPLEMENTED with the fixed message
"Method not implemented!", raises (signalling failure to the framework, so
no normal `DatumList` is ever returned — the outcome is the `raised`
constructor, never `returned`), and leaves the request iterator entirely
unconsumed. -/
theorem reduce_unimplemented (request_iterator : List PbDatum)
    (context : ServicerContext) :
    (ReduceFn request_iterator context).1.1.code = some StatusCode.unimplemented ∧
    (ReduceFn request_iterator context).1.1.details = some "Method not implemented!" ∧
    (ReduceFn request_iterator context).1.2 =
      ReduceOutcome.raised "Method not implemented!" ∧
    (ReduceFn request_iterator context).2 = request_iterator := by
  refine ⟨rfl, rfl, rfl, rfl⟩

/-- C6: Every `IsReady` call answers `ready = true`, whatever the request
and context; and after any sequence of prior calls (including Map calls with
failing callbacks) the servicer — which holds no mutable state — still
answers `ready = true`. -/
theorem isReady_always_true (datumKey : String)
    (s : UserDefinedFunctionServicer) (prior : List Call) (request : Unit)
    (context : ServicerContext) :
    IsReady request context = { ready := true } ∧
    runCalls datumKey s (prior ++ [Call.isReady context]) =
      runCalls datumKey s prior ++ [RpcResponse.ready { ready := true }] := by
  exact ⟨rfl, by simp [runCalls, handleCall, IsReady]⟩

/-- C7: The server options cap the outbound (send) and inbound (receive)
per-message sizes at the same configured `max_message_size`: the cap is
symmetric. -/
theorem serve_options_symmetric (s : UserDefinedFunctionServicer) :
    (serveOptions s).lookup "grpc.max_send_message_length" =
      some s.max_message_size ∧
    (serveOptions s).lookup "grpc.max_receive_message_length" =
      some s.max_message_size := by
  constructor <;> rfl

/-- C8: After the shutdown signal, the stopping server accepts no new
connections; its grace period is the source's 5 time units; an in-flight
call finishing within the grace window completes, and one still outstanding
when the window elapses is forcibly terminated. -/
theorem graceful_shutdown_grace_period (signal_time finish_time : Nat) :
    (server_graceful_shutdown signal_time).acceptsNewConnections = false ∧
    (server_graceful_shutdown signal_time).grace = 5 ∧
    (server_graceful_shutdown signal_time).fate finish_time =
      (if finish_time ≤ signal_time + 5 then CallFate.completed
       else CallFate.forciblyTerminated) := by
  refine ⟨rfl, rfl, ?_⟩
  simp [server_graceful_shutdown, StoppingServer.fate, SHUTDOWN_GRACE]
